import Mathlib

/-!
Verification of `src/report/analyze_path/analyze_path.py` (CARET report
generator, path-analysis script).

The script consumes records tables produced by the external `caret_analyze`
library.  We embed those tables as a list of columns, each column holding the
timestamp samples (nanoseconds, integers) that are present in that column;
this follows the spec's data model ("Records: a table of event timestamps per
callback in a path") and pandas' nullable semantics: `min`/`max` of a column
with no present sample yield the missing marker NA, NA propagates through
arithmetic, and NA is not an `int`/`float` instance.  A column's `len` is its
number of present samples.  Python floats are modelled as exact rationals;
the square root inside `np.std` is modelled by `Rat.sqrt` (no claim below
depends on the numeric value of a standard deviation, only on whether the
field is written).
-/

namespace AnalyzePath

/-- A records table as returned by `records.to_dataframe()`: one list of
present timestamp samples (ns) per column. -/
structure Records where
  columns : List (List ℤ)
deriving DecidableEq

/-- `get_messageflow_durationtime(records, check_by_input)` (lines 106-125).
`df_records.columns[0]` raises `IndexError` on a table with no columns, and
the bare `except:` turns that into `None`.  `min`/`max` of an empty column
give NA, NA propagates through `-` and `* 1e-9`, and the final
`isinstance(duration, (int, float))` check rejects NA, yielding `None`.
A duration computed from present samples is a finite float, modelled
exactly as a rational. -/
def get_messageflow_durationtime (records : Records) (check_by_input : Bool) :
    Option ℚ :=
  match records.columns with
  | [] => none
  | c :: rest =>
    let input_time_min := c.min?
    let end_time_max := if check_by_input then c.max? else (rest.getLastD c).max?
    match input_time_min, end_time_max with
    | some a, some b => some (((b : ℚ) - (a : ℚ)) * (1 / 1000000000))
    | _, _ => none

/-- `check_the_first_last_callback_is_valid(records)` (lines 128-139).
`df_records.columns[0]` raises an uncaught `IndexError` when the table has
no columns, modelled as `none`; otherwise each flag starts `True` and is
cleared when the corresponding column has zero samples. -/
def check_the_first_last_callback_is_valid (records : Records) :
    Option (Bool × Bool) :=
  match records.columns with
  | [] => none
  | c :: rest =>
    let is_first_valid := !(c.length == 0)
    let is_last_valid := !((rest.getLastD c).length == 0)
    some (is_first_valid, is_last_valid)

/-- The value of one statistics field of `Stats`: the `'---'` placeholder set
by the constructor, a float NaN (as produced by `np.average` on an empty
sequence), or a finite number. -/
inductive StatVal where
  | unavail : StatVal
  | nan : StatVal
  | num : ℚ → StatVal
deriving DecidableEq

/-- The `Stats` record (lines 47-103): per-path summary statistics plus
artifact file names. -/
structure Stats where
  target_path_name : String
  node_names : List String
  best_avg : StatVal
  best_std : StatVal
  best_min : StatVal
  best_max : StatVal
  best_p50 : StatVal
  best_p95 : StatVal
  best_p99 : StatVal
  worst_avg : StatVal
  worst_std : StatVal
  worst_min : StatVal
  worst_max : StatVal
  worst_p50 : StatVal
  worst_p95 : StatVal
  worst_p99 : StatVal
  filename_messageflow : String
  filename_messageflow_short : String
  filename_hist_total : String
  filename_hist_best : String
  filename_timeseries_best : String
  filename_stacked_bar_best : String
  filename_hist_worst : String
  filename_timeseries_worst : String
  filename_stacked_bar_worst : String
deriving DecidableEq

/-- `Stats.__init__` (lines 48-73): every statistics field starts at the
`'---'` placeholder and every file-name field starts empty. -/
def Stats.init (target_path_name : String) (node_names : List String) : Stats where
  target_path_name := target_path_name
  node_names := node_names
  best_avg := .unavail
  best_std := .unavail
  best_min := .unavail
  best_max := .unavail
  best_p50 := .unavail
  best_p95 := .unavail
  best_p99 := .unavail
  worst_avg := .unavail
  worst_std := .unavail
  worst_min := .unavail
  worst_max := .unavail
  worst_p50 := .unavail
  worst_p95 := .unavail
  worst_p99 := .unavail
  filename_messageflow := ""
  filename_messageflow_short := ""
  filename_hist_total := ""
  filename_hist_best := ""
  filename_timeseries_best := ""
  filename_stacked_bar_best := ""
  filename_hist_worst := ""
  filename_timeseries_worst := ""
  filename_stacked_bar_worst := ""

/-- Python `round(x, 3)`: round to 3 decimal places. -/
def round3 (q : ℚ) : ℚ := (round (q * 1000) : ℤ) / 1000

/-- The numeric sequences fed to `calc_stats` come sorted from nowhere, so
`np.min`, `np.max` and `np.quantile` are computed over the sorted samples. -/
def sortQ (xs : List ℚ) : List ℚ := List.insertionSort (· ≤ ·) xs

/-- `np.min`: least element (head of the sorted samples). -/
def npMin (xs : List ℚ) : ℚ := (sortQ xs).headD 0

/-- `np.max`: greatest element (last of the sorted samples). -/
def npMax (xs : List ℚ) : ℚ := (sortQ xs).getLastD 0

/-- `np.average` of a non-empty sequence: arithmetic mean. -/
def npAvg (xs : List ℚ) : ℚ := xs.sum / (xs.length : ℚ)

/-- `np.std` (population variance, `ddof=0`). -/
def npVar (xs : List ℚ) : ℚ := ((xs.map (fun x => (x - npAvg xs) ^ 2)).sum) / (xs.length : ℚ)

/-- `np.std`: square root of the population variance.  The floating-point
square root is modelled by `Rat.sqrt`. -/
def npStd (xs : List ℚ) : ℚ := Rat.sqrt (npVar xs)

/-- Linear interpolation at virtual index `h` into the sorted samples `s`:
`s[floor h] + (h - floor h) * (s[floor h + 1] - s[floor h])`, reading out of
range as the left neighbour (reached only at `h = len - 1`, where the
fractional part is zero). -/
def interpSorted (s : List ℚ) (h : ℚ) : ℚ :=
  s.getD ((⌊h⌋).toNat) 0 +
    (h - (((⌊h⌋).toNat : ℕ) : ℚ)) *
      (s.getD ((⌊h⌋).toNat + 1) (s.getD ((⌊h⌋).toNat) 0) -
        s.getD ((⌊h⌋).toNat) 0)

/-- `np.quantile(xs, p)` with the default linear interpolation between
ranks: interpolation at virtual index `p * (len - 1)` into the sorted
samples. -/
def npQuantile (xs : List ℚ) (p : ℚ) : ℚ :=
  interpSorted (sortQ xs) (p * (((sortQ xs).length : ℚ) - 1))

/-- `round(float(np.average(xs)), 3)`: NaN on an empty sequence (numpy mean
of an empty slice), otherwise the rounded mean. -/
def avgVal (xs : List ℚ) : StatVal :=
  match xs with
  | [] => .nan
  | _ :: _ => .num (round3 (npAvg xs))

/-- `Stats.calc_stats(df_best, df_worst)` (lines 75-92): the average is
written unconditionally; std/min/max/p50/p95/p99 are written only when the
sequence has more than one sample. -/
def Stats.calc_stats (s : Stats) (df_best df_worst : List ℚ) : Stats :=
  let s1 := { s with best_avg := avgVal df_best }
  let s2 :=
    if df_best.length > 1 then
      { s1 with
        best_min := .num (round3 (npMin df_best))
        best_max := .num (round3 (npMax df_best))
        best_std := .num (round3 (npStd df_best))
        best_p50 := .num (round3 (npQuantile df_best (1/2)))
        best_p95 := .num (round3 (npQuantile df_best (95/100)))
        best_p99 := .num (round3 (npQuantile df_best (99/100))) }
    else s1
  let s3 := { s2 with worst_avg := avgVal df_worst }
  if df_worst.length > 1 then
    { s3 with
      worst_min := .num (round3 (npMin df_worst))
      worst_std := .num (round3 (npStd df_worst))
      worst_max := .num (round3 (npMax df_worst))
      worst_p50 := .num (round3 (npQuantile df_worst (1/2)))
      worst_p95 := .num (round3 (npQuantile df_worst (95/100)))
      worst_p99 := .num (round3 (npQuantile df_worst (99/100))) }
  else s3

/-- `Stats.store_filename(target_path_name, save_long_graph)` (lines 94-103). -/
def Stats.store_filename (s : Stats) (target_path_name : String)
    (save_long_graph : Bool) : Stats :=
  let s1 :=
    if save_long_graph then
      { s with filename_messageflow := target_path_name ++ "_messageflow" }
    else s
  { s1 with
    filename_messageflow_short := target_path_name ++ "_messageflow_short"
    filename_hist_best := target_path_name ++ "_hist_best"
    filename_timeseries_best := target_path_name ++ "_timeseries_best"
    filename_stacked_bar_best := target_path_name ++ "_stacked_bar_best"
    filename_hist_worst := target_path_name ++ "_hist_worst"
    filename_timeseries_worst := target_path_name ++ "_timeseries_worst"
    filename_stacked_bar_worst := target_path_name ++ "_stacked_bar_worst" }

/-- Observable side effects of the orchestration: a call to
`target_path.to_records()` with the inclusion flags in force at that moment,
a file artifact written to the destination directory, or a warning logged. -/
inductive Event where
  | extractCall : Bool → Bool → Event
  | artifact : String → Event
  | warn : String → Event
deriving DecidableEq

/-- The external library as seen from `analyze_path` for one path:
`extract first last` is `target_path.to_records()` after setting
`include_first_callback := first` and `include_last_callback := last`;
`respBest`/`respWorst` are the second data columns of the best/worst
response-time dataframes; `stackedBarOk c` tells whether
`create_response_time_stacked_bar_plot(..., case=c).save(...)` succeeds or
raises. -/
structure PathEnv where
  extract : Bool → Bool → Records
  respBest : List ℚ
  respWorst : List ℚ
  stackedBarOk : String → Bool

/-- Lines 148-155 of `analyze_path`: extract records with the configured
inclusion flags, validate the boundary callbacks, and on an invalid verdict
re-extract once with `include_first_callback := is_first_valid` and
`include_last_callback := is_last_valid`.  `none` models the uncaught
`IndexError` of the validator on a table with no columns. -/
def records_after_check (env : PathEnv) (cfg : Bool × Bool) :
    Option (Records × List Event) :=
  let records := env.extract cfg.1 cfg.2
  match check_the_first_last_callback_is_valid records with
  | none => none
  | some (is_first_valid, is_last_valid) =>
    if (!is_first_valid) || (!is_last_valid) then
      some (env.extract is_first_valid is_last_valid,
            [.extractCall cfg.1 cfg.2, .extractCall is_first_valid is_last_valid])
    else
      some (records, [.extractCall cfg.1 cfg.2])

/-- Artifact and warning events of one iteration of the `for case_str in
['best', 'worst', 'all']` loop (lines 182-203): CSV export, timeseries plot,
histogram plot, then the stacked-bar plot guarded by `try/except`. -/
def caseEvents (env : PathEnv) (name c : String) : List Event :=
  [.artifact (name ++ "_response_time_" ++ c ++ ".csv"),
   .artifact (name ++ "_timeseries_" ++ c),
   .artifact (name ++ "_hist_" ++ c)] ++
  (if env.stackedBarOk c then
    [.artifact (name ++ "_stacked_bar_" ++ c ++ ".html")]
   else
    [.warn ("Failed to create stacked bar graph: " ++ name ++ ", " ++ c)])

/-- `analyze_path` (lines 142-210) for one path, given its external
environment, configured inclusion pair, the `--message_flow` flag, and the
path/node names.  Returns the `Stats` object and the trace of observable
events; `none` models an uncaught exception. -/
def analyze_path (env : PathEnv) (cfg : Bool × Bool) (message_flow : Bool)
    (name : String) (nodes : List String) : Option (Stats × List Event) :=
  match records_after_check env cfg with
  | none => none
  | some (records, ev1) =>
    let stats := Stats.init name nodes
    match get_messageflow_durationtime records true with
    | none =>
      some (stats, ev1 ++ [.warn ("No-traffic and No-input in the path: " ++ name)])
    | some _ =>
      let ev2 := ev1 ++ [.artifact (name ++ "_messageflow_short")]
      let ev3 :=
        if message_flow then ev2 ++ [.artifact (name ++ "_messageflow")] else ev2
      match get_messageflow_durationtime records false with
      | none =>
        some (stats.store_filename name message_flow,
              ev3 ++ [.warn ("No-traffic in the path: " ++ name)])
      | some _ =>
        let ev4 := ev3 ++ caseEvents env name "best" ++ caseEvents env name "worst"
                       ++ caseEvents env name "all"
        let stats1 := stats.calc_stats env.respBest env.respWorst
        some (stats1.store_filename name message_flow, ev4)

/-- One entry of `target_path.json`'s `target_path_list`: the two flag keys
may be absent. -/
structure PathJsonEntry where
  name : String
  include_first_callback : Option Bool
  include_last_callback : Option Bool
deriving DecidableEq

/-- The override pair contributed by one JSON entry: missing keys default to
`True` (lines 228-229). -/
def entryPair (e : PathJsonEntry) : Bool × Bool :=
  (e.include_first_callback.getD true, e.include_last_callback.getD true)

/-- Python substring test `target_string in key`. -/
def substrOf (target key : String) : Bool := decide (target.data <:+: key.data)

/-- `modify_dictionary(dictionary, target_string, new_value)` (lines
219-222): overwrite the value of every key containing `target_string`. -/
def modify_dictionary (d : List (String × (Bool × Bool))) (target : String)
    (v : Bool × Bool) : List (String × (Bool × Bool)) :=
  d.map (fun kv => if substrOf target kv.1 then (kv.1, v) else kv)

/-- `get_include_first_last_callback` (lines 213-232): start every declared
path name at `(True, True)`, then, in file order, apply each JSON entry's
pair to every path name containing the entry's name. -/
def get_include_first_last_callback (path_names : List String)
    (entries : List PathJsonEntry) : List (String × (Bool × Bool)) :=
  entries.foldl
    (fun d e => modify_dictionary d e.name (entryPair e))
    (path_names.map (fun n => (n, (true, true))))

/-- The resolution policy as the spec words it, per path name: start from
the default `(true, true)` and apply, in file order, the override pair of
every entry whose name is contained in the path name, so that the last
matching entry wins.  Stated from the spec for comparison with
`get_include_first_last_callback`. -/
def resolveOverride (entries : List PathJsonEntry) (n : String) : Bool × Bool :=
  entries.foldl
    (fun acc e => if substrOf e.name n then entryPair e else acc) (true, true)

/-- One declared path as the top-level `analyze` sees it: its name, node
names, the result of `path.verify()`, and its external environment. -/
structure PathInput where
  name : String
  nodes : List String
  verify : Bool
  env : PathEnv

/-- Dictionary lookup `include_first_last_callback[target_path_name]`: the
mapping is built from the declared names themselves, so the lookup always
succeeds; the default is never reached. -/
def lookupIncl (d : List (String × (Bool × Bool))) (name : String) : Bool × Bool :=
  ((d.find? (fun kv => kv.1 == name)).map (·.2)).getD (true, true)

/-- The `# Analyze each path` loop of `analyze` (lines 259-262): run
`analyze_path` on each path in order, accumulating the `Stats` list and the
event trace; an uncaught exception in any path aborts the run (`none`). -/
def runPaths (d : List (String × (Bool × Bool))) (message_flow : Bool) :
    List PathInput → Option (List Stats × List Event)
  | [] => some ([], [])
  | p :: rest =>
    match analyze_path p.env (lookupIncl d p.name) message_flow p.name p.nodes with
    | none => none
    | some (s, evs) =>
      match runPaths d message_flow rest with
      | none => none
      | some (ss, evss) => some (s :: ss, evs ++ evss)

/-- Whether an event is a file artifact written to the destination
directory. -/
def isArtifact : Event → Bool
  | .artifact _ => true
  | _ => false

/-- Whether every statistics field of a `Stats` object holds the `'---'`
placeholder. -/
def statsPlaceholder (s : Stats) : Bool :=
  s.best_avg == .unavail && s.best_std == .unavail && s.best_min == .unavail &&
  s.best_max == .unavail && s.best_p50 == .unavail && s.best_p95 == .unavail &&
  s.best_p99 == .unavail && s.worst_avg == .unavail && s.worst_std == .unavail &&
  s.worst_min == .unavail && s.worst_max == .unavail && s.worst_p50 == .unavail &&
  s.worst_p95 == .unavail && s.worst_p99 == .unavail

/-- How a run of `analyze` can fail: `sys.exit(-1)` from the verification
loop, or an uncaught exception. -/
inductive AnalyzeErr where
  | exitNonZero : AnalyzeErr
  | crash : AnalyzeErr
deriving DecidableEq

/-- `analyze` (lines 235-270): build the inclusion mapping, verify every
declared path (exiting with a non-zero code on the first failure, before any
per-path analysis), then analyze each path and finally write the single
aggregated `stats_path.yaml`. -/
def analyze (paths : List PathInput) (entries : List PathJsonEntry)
    (message_flow : Bool) : Except AnalyzeErr (List Stats × List Event) :=
  let incl := get_include_first_last_callback (paths.map (·.name)) entries
  if paths.all (·.verify) then
    match runPaths incl message_flow paths with
    | none => .error .crash
    | some (ss, evs) => .ok (ss, evs ++ [.artifact "stats_path.yaml"])
  else .error .exitNonZero

/-!  ### Claims -/

/-- C1 counterexample: a records table whose last column has zero rows but
whose first column has two samples.  The claim says the duration is `None`
in both window modes, but with `check_by_input=True` only the first column
is consulted, so a finite duration is returned. -/
theorem c1_counterexample :
    (Records.mk [[0, 5], []]).columns.getLastD [] = [] ∧
    get_messageflow_durationtime (Records.mk [[0, 5], []]) true =
      some (1 / 200000000) := by
  constructor
  · rfl
  · norm_num [get_messageflow_durationtime]

/-- C1 (amended): `get_messageflow_durationtime` returns `None` in both
window modes when the table has no columns or the first column has zero
rows, and returns `None` in the `check_by_input=False` mode when the last
column has zero rows. -/
theorem c1_duration_undefined :
    (∀ (r : Records) (b : Bool), r.columns = [] →
      get_messageflow_durationtime r b = none) ∧
    (∀ (r : Records) (c : List ℤ) (rest : List (List ℤ)),
      r.columns = c :: rest →
      (c = [] → get_messageflow_durationtime r true = none ∧
                get_messageflow_durationtime r false = none) ∧
      (rest.getLastD c = [] → get_messageflow_durationtime r false = none)) := by
  constructor
  · rintro ⟨cols⟩ b h
    simp only at h
    subst h
    rfl
  · rintro ⟨cols⟩ c rest h
    simp only at h
    subst h
    constructor
    · rintro rfl
      constructor <;> simp [get_messageflow_durationtime]
    · intro hlast
      simp only [List.getLastD_eq_getLast?] at hlast
      rcases hc : c.min? with _ | a <;>
        simp [get_messageflow_durationtime, hlast, hc]

/-- C1 witness: the amended statement evaluated on concrete tables. -/
theorem c1_duration_undefined_witness :
    get_messageflow_durationtime (Records.mk []) true = none ∧
    get_messageflow_durationtime (Records.mk [[], [3]]) true = none ∧
    get_messageflow_durationtime (Records.mk [[], [3]]) false = none ∧
    get_messageflow_durationtime (Records.mk [[3], []]) false = none :=
  ⟨c1_duration_undefined.1 (Records.mk []) true rfl,
   ((c1_duration_undefined.2 (Records.mk [[], [3]]) [] [[3]] rfl).1 rfl).1,
   ((c1_duration_undefined.2 (Records.mk [[], [3]]) [] [[3]] rfl).1 rfl).2,
   (c1_duration_undefined.2 (Records.mk [[3], []]) [3] [[]] rfl).2 rfl⟩

/-- C5: on a table with at least one column, the validator reports the first
flag false exactly when the first column has zero rows and the last flag
false exactly when the last column has zero rows; both flags are true when
both columns hold at least one sample. -/
theorem c5_first_last_callback_valid (r : Records) (c : List ℤ)
    (rest : List (List ℤ)) (h : r.columns = c :: rest) :
    ∃ v1 v2, check_the_first_last_callback_is_valid r = some (v1, v2) ∧
      (v1 = false ↔ c.length = 0) ∧
      (v2 = false ↔ (rest.getLastD c).length = 0) ∧
      (c.length ≠ 0 → (rest.getLastD c).length ≠ 0 → v1 = true ∧ v2 = true) := by
  obtain ⟨cols⟩ := r
  simp only at h
  subst h
  refine ⟨_, _, rfl, ?_, ?_, ?_⟩
  · simp
  · simp
  · intro h1 h2
    simp only [List.getLastD_eq_getLast?] at h2
    constructor <;> simp [h1, h2]

/-- C5 witness: the validator evaluated on concrete tables through the
theorem. -/
theorem c5_first_last_callback_valid_witness :
    (∃ v1 v2,
      check_the_first_last_callback_is_valid (Records.mk [[7], []]) = some (v1, v2) ∧
      (v1 = false ↔ ([7] : List ℤ).length = 0) ∧
      (v2 = false ↔ (([[]] : List (List ℤ)).getLastD [7]).length = 0) ∧
      (([7] : List ℤ).length ≠ 0 → (([[]] : List (List ℤ)).getLastD [7]).length ≠ 0 →
        v1 = true ∧ v2 = true)) ∧
    check_the_first_last_callback_is_valid (Records.mk [[7], []]) =
      some (true, false) :=
  ⟨c5_first_last_callback_valid (Records.mk [[7], []]) [7] [[]] rfl, by decide⟩

/-- Folding `modify_dictionary` over the entries acts pointwise on the
values of the dictionary. -/
theorem foldl_modify_dictionary (es : List PathJsonEntry)
    (d : List (String × (Bool × Bool))) :
    es.foldl (fun d e => modify_dictionary d e.name (entryPair e)) d =
      d.map (fun kv => (kv.1,
        es.foldl (fun acc e => if substrOf e.name kv.1 then entryPair e else acc)
          kv.2)) := by
  induction es generalizing d with
  | nil => simp
  | cons e tl ih =>
    rw [List.foldl_cons, ih (modify_dictionary d e.name (entryPair e))]
    simp only [modify_dictionary, List.map_map]
    apply List.map_congr_left
    intro kv _
    by_cases h : substrOf e.name kv.1 = true <;> simp [h]

/-- A fold that overwrites its accumulator on every match computes the last
match: it equals a `find?` over the reversed list. -/
theorem foldl_overwrite_eq_find_reverse (es : List PathJsonEntry) (n : String)
    (init : Bool × Bool) :
    es.foldl (fun acc e => if substrOf e.name n then entryPair e else acc) init =
      ((es.reverse.find? (fun e => substrOf e.name n)).map entryPair).getD init := by
  induction es generalizing init with
  | nil => rfl
  | cons e tl ih =>
    simp only [List.foldl_cons, ih, List.reverse_cons, List.find?_append]
    cases htl : tl.reverse.find? (fun e => substrOf e.name n) with
    | some x => simp
    | none =>
      by_cases h : substrOf e.name n = true <;> simp [List.find?, h]

/-- C3: `get_include_first_last_callback` maps every declared path name to
the pair given by the spec's resolution policy `resolveOverride`; the
resolved pair is the override of the last entry in file order whose name is
contained in the path name (missing flags defaulting to true), and a path
name matched by no entry keeps the default `(true, true)`. -/
theorem c3_include_first_last_resolution :
    (∀ (path_names : List String) (entries : List PathJsonEntry),
      get_include_first_last_callback path_names entries =
        path_names.map (fun n => (n, resolveOverride entries n))) ∧
    (∀ (entries : List PathJsonEntry) (n : String),
      resolveOverride entries n =
        ((entries.reverse.find? (fun e => substrOf e.name n)).map
          entryPair).getD (true, true)) ∧
    (∀ (entries : List PathJsonEntry) (n : String),
      (∀ e ∈ entries, ¬ substrOf e.name n) →
      resolveOverride entries n = (true, true)) := by
  refine ⟨?_, ?_, ?_⟩
  · intro path_names entries
    simp only [get_include_first_last_callback, foldl_modify_dictionary,
      List.map_map]
    rfl
  · intro entries n
    exact foldl_overwrite_eq_find_reverse entries n (true, true)
  · intro entries n h
    rw [resolveOverride, foldl_overwrite_eq_find_reverse]
    have : entries.reverse.find? (fun e => substrOf e.name n) = none := by
      rw [List.find?_eq_none]
      intro e he
      exact h e (List.mem_reverse.mp he)
    simp [this]

/-- C3 witness: two overlapping entries, the later one wins; an unmatched
name keeps the default. -/
theorem c3_include_first_last_resolution_witness :
    get_include_first_last_callback ["PathAB", "Other"]
      [⟨"PathA", some false, none⟩, ⟨"athAB", some true, some false⟩] =
      ["PathAB", "Other"].map
        (fun n => (n, resolveOverride
          [⟨"PathA", some false, none⟩, ⟨"athAB", some true, some false⟩] n)) ∧
    resolveOverride
      [⟨"PathA", some false, none⟩, ⟨"athAB", some true, some false⟩] "Other" =
      (true, true) ∧
    resolveOverride
      [⟨"PathA", some false, none⟩, ⟨"athAB", some true, some false⟩] "PathAB" =
      (true, false) :=
  ⟨c3_include_first_last_resolution.1 ["PathAB", "Other"]
      [⟨"PathA", some false, none⟩, ⟨"athAB", some true, some false⟩],
   c3_include_first_last_resolution.2.2
      [⟨"PathA", some false, none⟩, ⟨"athAB", some true, some false⟩] "Other"
      (by decide),
   by decide⟩

/-- C6 counterexample: configured pair `(false, true)`, extraction yields a
table whose first column is non-empty (valid) and whose last column is empty
(invalid).  The claim says the valid boundary's inclusion flag remains as
configured, i.e. the retry would extract with `(false, false)`; the code
sets `include_first_callback = is_first_valid`, so the retry extracts with
`(true, false)`. -/
theorem c6_counterexample :
    (records_after_check
        ⟨fun _ _ => Records.mk [[1], []], [], [], fun _ => true⟩
        (false, true)).map (·.2) =
      some [Event.extractCall false true, Event.extractCall true false] ∧
    [Event.extractCall false true, Event.extractCall true false] ≠
      [Event.extractCall false true, Event.extractCall false false] := by
  constructor
  · rfl
  · decide

/-- C6 (amended): when the validator's verdict is `(v1, v2)`, analysis
proceeds with the originally extracted records and a single extraction call
if both verdicts are true, and otherwise performs exactly one retry that
re-extracts with the inclusion flags set to exactly the verdicts —
disabling an invalid boundary but also enabling a valid one even when it
was configured off.  No second retry occurs. -/
theorem c6_retry_once (env : PathEnv) (cfg : Bool × Bool) (c : List ℤ)
    (rest : List (List ℤ)) (hc : (env.extract cfg.1 cfg.2).columns = c :: rest)
    (v1 v2 : Bool) (h1 : v1 = !(c.length == 0))
    (h2 : v2 = !((rest.getLastD c).length == 0)) :
    records_after_check env cfg =
      if v1 && v2 then
        some (env.extract cfg.1 cfg.2, [Event.extractCall cfg.1 cfg.2])
      else
        some (env.extract v1 v2,
              [Event.extractCall cfg.1 cfg.2, Event.extractCall v1 v2]) := by
  subst h1 h2
  simp only [records_after_check, check_the_first_last_callback_is_valid, hc]
  cases hl1 : (c.length == 0) <;> cases hl2 : ((rest.getLastD c).length == 0) <;>
    simp

/-- C6 witness: the amended statement evaluated on the counterexample
environment: one retry with flags equal to the verdicts `(true, false)`. -/
theorem c6_retry_once_witness :
    records_after_check
        ⟨fun _ _ => Records.mk [[1], []], [], [], fun _ => true⟩ (false, true) =
      if true && false then
        some (Records.mk [[1], []], [Event.extractCall false true])
      else
        some (Records.mk [[1], []],
              [Event.extractCall false true, Event.extractCall true false]) :=
  c6_retry_once
    ⟨fun _ _ => Records.mk [[1], []], [], [], fun _ => true⟩ (false, true)
    [1] [[]] rfl true false rfl rfl

/-- C9: once the path reaches the response-time stage (both window durations
defined), the returned `Stats` is computed from the response-time data alone
— the expression does not mention `stackedBarOk`, so a stacked-bar rendering
failure cannot affect it — and the CSV, timeseries and histogram artifacts
of all three cases are produced whatever `stackedBarOk` returns; a failing
case additionally logs a warning. -/
theorem c9_stacked_bar_isolation (env : PathEnv) (cfg : Bool × Bool)
    (message_flow : Bool) (name : String) (nodes : List String)
    (r : Records) (ev1 : List Event)
    (hrec : records_after_check env cfg = some (r, ev1))
    (h1 : get_messageflow_durationtime r true ≠ none)
    (h2 : get_messageflow_durationtime r false ≠ none) :
    ∃ s evs, analyze_path env cfg message_flow name nodes = some (s, evs) ∧
      s = ((Stats.init name nodes).calc_stats env.respBest
            env.respWorst).store_filename name message_flow ∧
      (∀ c ∈ (["best", "worst", "all"] : List String),
        Event.artifact (name ++ "_response_time_" ++ c ++ ".csv") ∈ evs ∧
        Event.artifact (name ++ "_timeseries_" ++ c) ∈ evs ∧
        Event.artifact (name ++ "_hist_" ++ c) ∈ evs ∧
        (env.stackedBarOk c = false →
          Event.warn ("Failed to create stacked bar graph: " ++ name ++ ", " ++ c)
            ∈ evs)) := by
  cases hd1 : get_messageflow_durationtime r true with
  | none => exact absurd hd1 h1
  | some d1 =>
  cases hd2 : get_messageflow_durationtime r false with
  | none => exact absurd hd2 h2
  | some d2 =>
  have heq : analyze_path env cfg message_flow name nodes =
      some (((Stats.init name nodes).calc_stats env.respBest
              env.respWorst).store_filename name message_flow,
            (if message_flow then
              ev1 ++ [Event.artifact (name ++ "_messageflow_short")] ++
                [Event.artifact (name ++ "_messageflow")]
             else
              ev1 ++ [Event.artifact (name ++ "_messageflow_short")]) ++
              caseEvents env name "best" ++ caseEvents env name "worst" ++
              caseEvents env name "all") := by
    simp only [analyze_path, hrec, hd1, hd2]
  refine ⟨_, _, heq, rfl, ?_⟩
  intro c hc
  simp only [List.mem_cons, List.mem_singleton, List.not_mem_nil, or_false] at hc
  have memCase : ∀ e ∈ caseEvents env name c, e ∈
      (if message_flow then
        ev1 ++ [Event.artifact (name ++ "_messageflow_short")] ++
          [Event.artifact (name ++ "_messageflow")]
       else
        ev1 ++ [Event.artifact (name ++ "_messageflow_short")]) ++
        caseEvents env name "best" ++ caseEvents env name "worst" ++
        caseEvents env name "all" := by
    intro e he
    rcases hc with rfl | rfl | rfl <;> simp [he]
  refine ⟨?_, ?_, ?_, ?_⟩
  · exact memCase _ (by simp [caseEvents])
  · exact memCase _ (by simp [caseEvents])
  · exact memCase _ (by simp [caseEvents])
  · intro hsb
    exact memCase _ (by simp [caseEvents, hsb])

/-- C9 witness: an environment whose stacked-bar rendering always fails; the
CSV, timeseries and histogram artifacts of every case are still produced and
the statistics are still computed. -/
theorem c9_stacked_bar_isolation_witness :
    ∃ s evs, analyze_path
        ⟨fun _ _ => Records.mk [[0, 5]], [1, 2], [3, 4], fun _ => false⟩
        (true, true) false "P" ["n"] = some (s, evs) ∧
      s = ((Stats.init "P" ["n"]).calc_stats
            (PathEnv.respBest ⟨fun _ _ => Records.mk [[0, 5]], [1, 2], [3, 4],
              fun _ => false⟩)
            (PathEnv.respWorst ⟨fun _ _ => Records.mk [[0, 5]], [1, 2], [3, 4],
              fun _ => false⟩)).store_filename "P" false ∧
      (∀ c ∈ (["best", "worst", "all"] : List String),
        Event.artifact ("P" ++ "_response_time_" ++ c ++ ".csv") ∈ evs ∧
        Event.artifact ("P" ++ "_timeseries_" ++ c) ∈ evs ∧
        Event.artifact ("P" ++ "_hist_" ++ c) ∈ evs ∧
        ((PathEnv.stackedBarOk ⟨fun _ _ => Records.mk [[0, 5]], [1, 2], [3, 4],
            fun _ => false⟩) c = false →
          Event.warn ("Failed to create stacked bar graph: " ++ "P" ++ ", " ++ c)
            ∈ evs)) :=
  c9_stacked_bar_isolation
    ⟨fun _ _ => Records.mk [[0, 5]], [1, 2], [3, 4], fun _ => false⟩
    (true, true) false "P" ["n"] (Records.mk [[0, 5]])
    [Event.extractCall true true] rfl (by decide) (by decide)

/-- A path whose extraction yields an entirely empty records table (some
columns, zero samples everywhere), under any inclusion flags, takes the
early `No-traffic and No-input` return: fresh placeholder `Stats`, no
artifact events. -/
theorem analyze_path_empty_records (env : PathEnv) (R : Records)
    (hconst : ∀ f l, env.extract f l = R)
    (c : List ℤ) (rest : List (List ℤ)) (hcols : R.columns = c :: rest)
    (hempty : ∀ col ∈ R.columns, col = [])
    (cfg : Bool × Bool) (mf : Bool) (name : String) (nodes : List String) :
    analyze_path env cfg mf name nodes =
      some (Stats.init name nodes,
        [Event.extractCall cfg.1 cfg.2, Event.extractCall false false,
         Event.warn ("No-traffic and No-input in the path: " ++ name)]) := by
  have hc : c = [] := hempty c (by rw [hcols]; exact List.mem_cons_self c rest)
  have hlast : rest.getLastD c = [] :=
    hempty _ (by rw [hcols]; exact List.getLastD_mem_cons rest c)
  have hlast2 : rest.getLast?.getD c = [] := by
    rw [← List.getLastD_eq_getLast?]; exact hlast
  have hcheck : check_the_first_last_callback_is_valid R = some (false, false) := by
    simp [check_the_first_last_callback_is_valid, hcols, hc, hlast2, hc ▸ hlast2]
  have hrac : records_after_check env cfg =
      some (R, [Event.extractCall cfg.1 cfg.2, Event.extractCall false false]) := by
    simp [records_after_check, hconst, hcheck]
  have hdur : get_messageflow_durationtime R true = none := by
    subst hc
    simp [get_messageflow_durationtime, hcols]
  simp [analyze_path, hrac, hdur]

/-- If every path's `analyze_path` call succeeds, the analysis loop yields
the `Stats` list containing each path's result. -/
theorem runPaths_some_of_all_some (d : List (String × (Bool × Bool)))
    (mf : Bool) (ps : List PathInput)
    (h : ∀ q ∈ ps,
      analyze_path q.env (lookupIncl d q.name) mf q.name q.nodes ≠ none) :
    ∃ ss evs, runPaths d mf ps = some (ss, evs) ∧
      ∀ q ∈ ps, ∃ s e,
        analyze_path q.env (lookupIncl d q.name) mf q.name q.nodes = some (s, e) ∧
        s ∈ ss := by
  induction ps with
  | nil => exact ⟨[], [], rfl, by simp⟩
  | cons p tl ih =>
    have hp := h p (List.mem_cons_self p tl)
    cases hap : analyze_path p.env (lookupIncl d p.name) mf p.name p.nodes with
    | none => exact absurd hap hp
    | some se =>
      obtain ⟨ss, evs, hrun, hmem⟩ := ih (fun q hq => h q (List.mem_cons_of_mem p hq))
      refine ⟨se.1 :: ss, se.2 ++ evs, ?_, ?_⟩
      · simp [runPaths, hap, hrun]
      · intro q hq
        rcases List.mem_cons.mp hq with rfl | hq
        · exact ⟨se.1, se.2, hap, List.mem_cons_self _ _⟩
        · obtain ⟨s, e, ha, hm⟩ := hmem q hq
          exact ⟨s, e, ha, List.mem_cons_of_mem _ hm⟩

/-- C2: for a path whose extracted records contain zero trace rows entirely,
`analyze_path` returns the freshly initialized `Stats` — every statistics
field at the `'---'` placeholder — and writes no artifacts; when every path
of the run verifies and no other path crashes, the run completes and that
path's record appears in the final stats list. -/
theorem c2_zero_rows_placeholder (ps : List PathInput)
    (entries : List PathJsonEntry) (message_flow : Bool) (p : PathInput)
    (hp : p ∈ ps) (R : Records) (hconst : ∀ f l, p.env.extract f l = R)
    (c : List ℤ) (rest : List (List ℤ)) (hcols : R.columns = c :: rest)
    (hempty : ∀ col ∈ R.columns, col = [])
    (hverify : ∀ q ∈ ps, q.verify = true)
    (hok : ∀ q ∈ ps,
      analyze_path q.env
        (lookupIncl (get_include_first_last_callback (ps.map (·.name)) entries)
          q.name) message_flow q.name q.nodes ≠ none) :
    (∀ cfg : Bool × Bool, ∃ evs,
      analyze_path p.env cfg message_flow p.name p.nodes =
        some (Stats.init p.name p.nodes, evs) ∧
      evs.filter isArtifact = []) ∧
    statsPlaceholder (Stats.init p.name p.nodes) = true ∧
    (∃ ss evs, analyze ps entries message_flow = Except.ok (ss, evs) ∧
      Stats.init p.name p.nodes ∈ ss) := by
  have hpath := fun cfg =>
    analyze_path_empty_records p.env R hconst c rest hcols hempty cfg
      message_flow p.name p.nodes
  refine ⟨fun cfg => ⟨_, hpath cfg, rfl⟩, rfl, ?_⟩
  obtain ⟨ss, evs, hrun, hmem⟩ :=
    runPaths_some_of_all_some
      (get_include_first_last_callback (ps.map (·.name)) entries)
      message_flow ps hok
  obtain ⟨s, e, ha, hm⟩ := hmem p hp
  have hs : s = Stats.init p.name p.nodes := by
    have h2 := (hpath _).symm.trans ha
    simp only [Option.some.injEq, Prod.mk.injEq] at h2
    exact h2.1.symm
  refine ⟨ss, evs ++ [Event.artifact "stats_path.yaml"], ?_, hs ▸ hm⟩
  have hall : ps.all (·.verify) = true := by
    rw [List.all_eq_true]; exact hverify
  simp [analyze, hall, hrun]

/-- C2 witness: a single declared path whose extraction always returns one
empty column. -/
theorem c2_zero_rows_placeholder_witness :
    ((∀ cfg : Bool × Bool, ∃ evs,
      analyze_path (PathEnv.mk (fun _ _ => Records.mk [[]]) [] []
          (fun _ => true)) cfg false "P" ["n"] =
        some (Stats.init "P" ["n"], evs) ∧
      evs.filter isArtifact = []) ∧
    statsPlaceholder (Stats.init "P" ["n"]) = true ∧
    (∃ ss evs,
      analyze [PathInput.mk "P" ["n"] true
          (PathEnv.mk (fun _ _ => Records.mk [[]]) [] [] (fun _ => true))] []
          false = Except.ok (ss, evs) ∧
      Stats.init "P" ["n"] ∈ ss)) :=
  c2_zero_rows_placeholder
    [PathInput.mk "P" ["n"] true
      (PathEnv.mk (fun _ _ => Records.mk [[]]) [] [] (fun _ => true))]
    [] false
    (PathInput.mk "P" ["n"] true
      (PathEnv.mk (fun _ _ => Records.mk [[]]) [] [] (fun _ => true)))
    (List.mem_singleton.mpr rfl)
    (Records.mk [[]]) (fun _ _ => rfl) [] [] rfl (by simp)
    (by simp) (by decide)

/-- The analysis loop yields exactly one `Stats` record per declared path. -/
theorem runPaths_length (d : List (String × (Bool × Bool))) (mf : Bool) :
    ∀ (ps : List PathInput) (ss : List Stats) (evs : List Event),
      runPaths d mf ps = some (ss, evs) → ss.length = ps.length := by
  intro ps
  induction ps with
  | nil =>
    intro ss evs h
    simp only [runPaths, Option.some.injEq, Prod.mk.injEq] at h
    simp [← h.1]
  | cons p tl ih =>
    intro ss evs h
    simp only [runPaths] at h
    cases hap : analyze_path p.env (lookupIncl d p.name) mf p.name p.nodes with
    | none => rw [hap] at h; exact absurd h (by simp)
    | some se =>
      rw [hap] at h
      cases hrun : runPaths d mf tl with
      | none => rw [hrun] at h; exact absurd h (by simp)
      | some st =>
        rw [hrun] at h
        simp only [Option.some.injEq, Prod.mk.injEq] at h
        have := ih st.1 st.2 (by rw [hrun])
        simp [← h.1, this]

/-- C7: if any declared path fails verification, `analyze` exits with a
non-zero code before any per-path analysis or report output; conversely a
completed run implies every path verified, the aggregated
`stats_path.yaml` was the final write, and the loop produced one record per
declared path. -/
theorem c7_verify_gate (ps : List PathInput) (entries : List PathJsonEntry)
    (message_flow : Bool) :
    ((∃ p ∈ ps, p.verify = false) →
      analyze ps entries message_flow = Except.error AnalyzeErr.exitNonZero) ∧
    (∀ ss evs, analyze ps entries message_flow = Except.ok (ss, evs) →
      (∀ p ∈ ps, p.verify = true) ∧
      evs.getLast? = some (Event.artifact "stats_path.yaml") ∧
      ss.length = ps.length) := by
  constructor
  · rintro ⟨p, hp, hv⟩
    have hall : ps.all (·.verify) = false := by
      rw [List.all_eq_false]
      exact ⟨p, hp, by simp [hv]⟩
    simp [analyze, hall]
  · intro ss evs h
    rw [analyze] at h
    cases hall : ps.all (·.verify) with
    | false => rw [hall] at h; exact absurd h (by simp)
    | true =>
      rw [hall] at h
      simp only [if_true] at h
      cases hrun : runPaths
          (get_include_first_last_callback (ps.map (·.name)) entries)
          message_flow ps with
      | none => rw [hrun] at h; exact absurd h (by simp)
      | some st =>
        rw [hrun] at h
        simp only [Except.ok.injEq, Prod.mk.injEq] at h
        refine ⟨fun p hp => by
            have := List.all_eq_true.mp hall p hp
            simpa using this, ?_, ?_⟩
        · rw [← h.2]
          simp
        · rw [← h.1]
          exact runPaths_length _ _ ps st.1 st.2 (by rw [Prod.mk.eta]; exact hrun)

/-- C7 witness: a run with a failing path exits non-zero; a run whose only
path verifies completes with the aggregated report as the final write. -/
theorem c7_verify_gate_witness :
    analyze [PathInput.mk "P" ["n"] false
        (PathEnv.mk (fun _ _ => Records.mk [[]]) [] [] (fun _ => true))]
      [] false = Except.error AnalyzeErr.exitNonZero ∧
    ((∀ p ∈ [PathInput.mk "P" ["n"] true
        (PathEnv.mk (fun _ _ => Records.mk [[]]) [] [] (fun _ => true))],
        p.verify = true) ∧
      ([Event.extractCall true true, Event.extractCall false false,
        Event.warn ("No-traffic and No-input in the path: " ++ "P"),
        Event.artifact "stats_path.yaml"] : List Event).getLast? =
        some (Event.artifact "stats_path.yaml") ∧
      ([Stats.init "P" ["n"]] : List Stats).length =
        ([PathInput.mk "P" ["n"] true
          (PathEnv.mk (fun _ _ => Records.mk [[]]) [] [] (fun _ => true))] :
            List PathInput).length) :=
  ⟨(c7_verify_gate [PathInput.mk "P" ["n"] false
        (PathEnv.mk (fun _ _ => Records.mk [[]]) [] [] (fun _ => true))]
      [] false).1
      ⟨PathInput.mk "P" ["n"] false
        (PathEnv.mk (fun _ _ => Records.mk [[]]) [] [] (fun _ => true)),
       List.mem_singleton.mpr rfl, rfl⟩,
   (c7_verify_gate [PathInput.mk "P" ["n"] true
        (PathEnv.mk (fun _ _ => Records.mk [[]]) [] [] (fun _ => true))]
      [] false).2
      [Stats.init "P" ["n"]]
      [Event.extractCall true true, Event.extractCall false false,
       Event.warn ("No-traffic and No-input in the path: " ++ "P"),
       Event.artifact "stats_path.yaml"] rfl⟩

/-- The average field written by `calc_stats` is never the `'---'`
placeholder: it is NaN on an empty sequence and a number otherwise. -/
theorem avgVal_ne_unavail (xs : List ℚ) : avgVal xs ≠ StatVal.unavail := by
  cases xs <;> simp [avgVal]

/-- C4: on a fresh `Stats`, a length-1 sequence sets only the average (to
the rounded single sample) and leaves std/min/max/p50/p95/p99 at `'---'`;
sequences with more than one sample additionally fill in all of
std/min/max/p50/p95/p99. -/
theorem c4_single_sample_stats (name : String) (nodes : List String)
    (x y : ℚ) (bs ws : List ℚ) (hb : 1 < bs.length) (hw : 1 < ws.length) :
    (((Stats.init name nodes).calc_stats [x] [y]).best_avg =
        StatVal.num (round3 x) ∧
     ((Stats.init name nodes).calc_stats [x] [y]).worst_avg =
        StatVal.num (round3 y) ∧
     ((Stats.init name nodes).calc_stats [x] [y]).best_std = StatVal.unavail ∧
     ((Stats.init name nodes).calc_stats [x] [y]).best_min = StatVal.unavail ∧
     ((Stats.init name nodes).calc_stats [x] [y]).best_max = StatVal.unavail ∧
     ((Stats.init name nodes).calc_stats [x] [y]).best_p50 = StatVal.unavail ∧
     ((Stats.init name nodes).calc_stats [x] [y]).best_p95 = StatVal.unavail ∧
     ((Stats.init name nodes).calc_stats [x] [y]).best_p99 = StatVal.unavail ∧
     ((Stats.init name nodes).calc_stats [x] [y]).worst_std = StatVal.unavail ∧
     ((Stats.init name nodes).calc_stats [x] [y]).worst_min = StatVal.unavail ∧
     ((Stats.init name nodes).calc_stats [x] [y]).worst_max = StatVal.unavail ∧
     ((Stats.init name nodes).calc_stats [x] [y]).worst_p50 = StatVal.unavail ∧
     ((Stats.init name nodes).calc_stats [x] [y]).worst_p95 = StatVal.unavail ∧
     ((Stats.init name nodes).calc_stats [x] [y]).worst_p99 = StatVal.unavail) ∧
    (((Stats.init name nodes).calc_stats bs ws).best_avg ≠ StatVal.unavail ∧
     ((Stats.init name nodes).calc_stats bs ws).worst_avg ≠ StatVal.unavail ∧
     ((Stats.init name nodes).calc_stats bs ws).best_std ≠ StatVal.unavail ∧
     ((Stats.init name nodes).calc_stats bs ws).best_min ≠ StatVal.unavail ∧
     ((Stats.init name nodes).calc_stats bs ws).best_max ≠ StatVal.unavail ∧
     ((Stats.init name nodes).calc_stats bs ws).best_p50 ≠ StatVal.unavail ∧
     ((Stats.init name nodes).calc_stats bs ws).best_p95 ≠ StatVal.unavail ∧
     ((Stats.init name nodes).calc_stats bs ws).best_p99 ≠ StatVal.unavail ∧
     ((Stats.init name nodes).calc_stats bs ws).worst_std ≠ StatVal.unavail ∧
     ((Stats.init name nodes).calc_stats bs ws).worst_min ≠ StatVal.unavail ∧
     ((Stats.init name nodes).calc_stats bs ws).worst_max ≠ StatVal.unavail ∧
     ((Stats.init name nodes).calc_stats bs ws).worst_p50 ≠ StatVal.unavail ∧
     ((Stats.init name nodes).calc_stats bs ws).worst_p95 ≠ StatVal.unavail ∧
     ((Stats.init name nodes).calc_stats bs ws).worst_p99 ≠ StatVal.unavail) := by
  constructor
  · simp [Stats.calc_stats, Stats.init, avgVal, npAvg]
  · have hb1 : ¬ bs.length ≤ 1 := Nat.not_le.mpr hb
    have hw1 : ¬ ws.length ≤ 1 := Nat.not_le.mpr hw
    simp [Stats.calc_stats, hb, hw, avgVal_ne_unavail]

/-- C4 witness: the theorem at a single sample `x = 7`, `y = 8` and the
length-2 sequences `[1, 2]`, `[3, 4]`. -/
theorem c4_single_sample_stats_witness :
    (((Stats.init "P" []).calc_stats [7] [8]).best_avg =
        StatVal.num (round3 7) ∧
     ((Stats.init "P" []).calc_stats [7] [8]).worst_avg =
        StatVal.num (round3 8) ∧
     ((Stats.init "P" []).calc_stats [7] [8]).best_std = StatVal.unavail ∧
     ((Stats.init "P" []).calc_stats [7] [8]).best_min = StatVal.unavail ∧
     ((Stats.init "P" []).calc_stats [7] [8]).best_max = StatVal.unavail ∧
     ((Stats.init "P" []).calc_stats [7] [8]).best_p50 = StatVal.unavail ∧
     ((Stats.init "P" []).calc_stats [7] [8]).best_p95 = StatVal.unavail ∧
     ((Stats.init "P" []).calc_stats [7] [8]).best_p99 = StatVal.unavail ∧
     ((Stats.init "P" []).calc_stats [7] [8]).worst_std = StatVal.unavail ∧
     ((Stats.init "P" []).calc_stats [7] [8]).worst_min = StatVal.unavail ∧
     ((Stats.init "P" []).calc_stats [7] [8]).worst_max = StatVal.unavail ∧
     ((Stats.init "P" []).calc_stats [7] [8]).worst_p50 = StatVal.unavail ∧
     ((Stats.init "P" []).calc_stats [7] [8]).worst_p95 = StatVal.unavail ∧
     ((Stats.init "P" []).calc_stats [7] [8]).worst_p99 = StatVal.unavail) ∧
    (((Stats.init "P" []).calc_stats [1, 2] [3, 4]).best_avg ≠ StatVal.unavail ∧
     ((Stats.init "P" []).calc_stats [1, 2] [3, 4]).worst_avg ≠ StatVal.unavail ∧
     ((Stats.init "P" []).calc_stats [1, 2] [3, 4]).best_std ≠ StatVal.unavail ∧
     ((Stats.init "P" []).calc_stats [1, 2] [3, 4]).best_min ≠ StatVal.unavail ∧
     ((Stats.init "P" []).calc_stats [1, 2] [3, 4]).best_max ≠ StatVal.unavail ∧
     ((Stats.init "P" []).calc_stats [1, 2] [3, 4]).best_p50 ≠ StatVal.unavail ∧
     ((Stats.init "P" []).calc_stats [1, 2] [3, 4]).best_p95 ≠ StatVal.unavail ∧
     ((Stats.init "P" []).calc_stats [1, 2] [3, 4]).best_p99 ≠ StatVal.unavail ∧
     ((Stats.init "P" []).calc_stats [1, 2] [3, 4]).worst_std ≠ StatVal.unavail ∧
     ((Stats.init "P" []).calc_stats [1, 2] [3, 4]).worst_min ≠ StatVal.unavail ∧
     ((Stats.init "P" []).calc_stats [1, 2] [3, 4]).worst_max ≠ StatVal.unavail ∧
     ((Stats.init "P" []).calc_stats [1, 2] [3, 4]).worst_p50 ≠ StatVal.unavail ∧
     ((Stats.init "P" []).calc_stats [1, 2] [3, 4]).worst_p95 ≠ StatVal.unavail ∧
     ((Stats.init "P" []).calc_stats [1, 2] [3, 4]).worst_p99 ≠ StatVal.unavail) :=
  c4_single_sample_stats "P" [] 7 8 [1, 2] [3, 4] (by decide) (by decide)

/-- C10: `calc_stats` writes only the fourteen statistics fields: the path
name, node names and every file-name field are untouched; on a sequence of
length at most 1 the corresponding std/min/max/p50/p95/p99 fields keep the
values they held before the call; and no field that `calc_stats` does write
receives the `'---'` placeholder. -/
theorem c10_calc_stats_frame (s : Stats) (b w : List ℚ) :
    (s.calc_stats b w).target_path_name = s.target_path_name ∧
    (s.calc_stats b w).node_names = s.node_names ∧
    (s.calc_stats b w).filename_messageflow = s.filename_messageflow ∧
    (s.calc_stats b w).filename_messageflow_short = s.filename_messageflow_short ∧
    (s.calc_stats b w).filename_hist_total = s.filename_hist_total ∧
    (s.calc_stats b w).filename_hist_best = s.filename_hist_best ∧
    (s.calc_stats b w).filename_timeseries_best = s.filename_timeseries_best ∧
    (s.calc_stats b w).filename_stacked_bar_best = s.filename_stacked_bar_best ∧
    (s.calc_stats b w).filename_hist_worst = s.filename_hist_worst ∧
    (s.calc_stats b w).filename_timeseries_worst = s.filename_timeseries_worst ∧
    (s.calc_stats b w).filename_stacked_bar_worst = s.filename_stacked_bar_worst ∧
    (b.length ≤ 1 →
      (s.calc_stats b w).best_std = s.best_std ∧
      (s.calc_stats b w).best_min = s.best_min ∧
      (s.calc_stats b w).best_max = s.best_max ∧
      (s.calc_stats b w).best_p50 = s.best_p50 ∧
      (s.calc_stats b w).best_p95 = s.best_p95 ∧
      (s.calc_stats b w).best_p99 = s.best_p99) ∧
    (w.length ≤ 1 →
      (s.calc_stats b w).worst_std = s.worst_std ∧
      (s.calc_stats b w).worst_min = s.worst_min ∧
      (s.calc_stats b w).worst_max = s.worst_max ∧
      (s.calc_stats b w).worst_p50 = s.worst_p50 ∧
      (s.calc_stats b w).worst_p95 = s.worst_p95 ∧
      (s.calc_stats b w).worst_p99 = s.worst_p99) ∧
    (s.calc_stats b w).best_avg ≠ StatVal.unavail ∧
    (s.calc_stats b w).worst_avg ≠ StatVal.unavail ∧
    (1 < b.length →
      (s.calc_stats b w).best_std ≠ StatVal.unavail ∧
      (s.calc_stats b w).best_min ≠ StatVal.unavail ∧
      (s.calc_stats b w).best_max ≠ StatVal.unavail ∧
      (s.calc_stats b w).best_p50 ≠ StatVal.unavail ∧
      (s.calc_stats b w).best_p95 ≠ StatVal.unavail ∧
      (s.calc_stats b w).best_p99 ≠ StatVal.unavail) ∧
    (1 < w.length →
      (s.calc_stats b w).worst_std ≠ StatVal.unavail ∧
      (s.calc_stats b w).worst_min ≠ StatVal.unavail ∧
      (s.calc_stats b w).worst_max ≠ StatVal.unavail ∧
      (s.calc_stats b w).worst_p50 ≠ StatVal.unavail ∧
      (s.calc_stats b w).worst_p95 ≠ StatVal.unavail ∧
      (s.calc_stats b w).worst_p99 ≠ StatVal.unavail) := by
  by_cases hb : 1 < b.length <;> by_cases hw : 1 < w.length <;>
    simp [Stats.calc_stats, hb, hw, avgVal_ne_unavail, Nat.not_le.mpr,
      Nat.not_lt.mp, Nat.lt_irrefl]

/-- C10 witness: the frame condition evaluated on a fully populated `Stats`
with a length-0 best sequence and a length-2 worst sequence; the best
std/min/max/p50/p95/p99 keep their pre-call values. -/
theorem c10_calc_stats_frame_witness :
    ((Stats.init "Q" ["a"]).calc_stats [] [5, 6]).target_path_name =
        (Stats.init "Q" ["a"]).target_path_name ∧
    ((Stats.init "Q" ["a"]).calc_stats [] [5, 6]).node_names =
        (Stats.init "Q" ["a"]).node_names ∧
    (([] : List ℚ).length ≤ 1 ∧
      ((Stats.init "Q" ["a"]).calc_stats [] [5, 6]).best_std =
        (Stats.init "Q" ["a"]).best_std ∧
      ((Stats.init "Q" ["a"]).calc_stats [] [5, 6]).best_p99 =
        (Stats.init "Q" ["a"]).best_p99) ∧
    (1 < ([5, 6] : List ℚ).length ∧
      ((Stats.init "Q" ["a"]).calc_stats [] [5, 6]).worst_std ≠
        StatVal.unavail ∧
      ((Stats.init "Q" ["a"]).calc_stats [] [5, 6]).worst_p99 ≠
        StatVal.unavail) ∧
    ((Stats.init "Q" ["a"]).calc_stats [] [5, 6]).best_avg ≠ StatVal.unavail := by
  obtain ⟨h1, h2, _, _, _, _, _, _, _, _, _, hble, _, havgb, _, _, hwgt⟩ :=
    c10_calc_stats_frame (Stats.init "Q" ["a"]) [] [5, 6]
  have hbk := hble (by decide)
  have hwk := hwgt (by decide)
  exact ⟨h1, h2, ⟨by decide, hbk.1, hbk.2.2.2.2.2⟩,
         ⟨by decide, hwk.1, hwk.2.2.2.2.2⟩, havgb⟩

/-- The sorted samples are sorted. -/
theorem sortQ_sorted (xs : List ℚ) : (sortQ xs).Sorted (· ≤ ·) :=
  List.sorted_insertionSort _ xs

/-- Sorting preserves the number of samples. -/
theorem sortQ_length (xs : List ℚ) : (sortQ xs).length = xs.length :=
  List.length_insertionSort _ xs

/-- `getD` with an in-range index is plain indexing. -/
theorem getD_eq_getElem_of_lt (s : List ℚ) (d : ℚ) (i : ℕ) (h : i < s.length) :
    s.getD i d = s[i] := by
  rw [List.getD_eq_getElem?_getD, List.getElem?_eq_getElem h, Option.getD_some]

/-- In a sorted list, `getD` at default 0 is monotone over in-range
indices. -/
theorem sorted_getD_mono (s : List ℚ) (hs : s.Sorted (· ≤ ·)) (i j : ℕ)
    (hij : i ≤ j) (hj : j < s.length) : s.getD i 0 ≤ s.getD j 0 := by
  have hi : i < s.length := lt_of_le_of_lt hij hj
  rw [getD_eq_getElem_of_lt s 0 i hi, getD_eq_getElem_of_lt s 0 j hj]
  have := hs.rel_get_of_le (a := ⟨i, hi⟩) (b := ⟨j, hj⟩) hij
  simpa using this

/-- In a non-empty sorted list the head is a lower bound of every entry. -/
theorem headD_le_getD (s : List ℚ) (hs : s.Sorted (· ≤ ·)) (j : ℕ)
    (hj : j < s.length) : s.headD 0 ≤ s.getD j 0 := by
  have hne : s ≠ [] := by
    intro hnil
    rw [hnil] at hj
    exact absurd hj (by simp)
  have hhead : s.headD 0 = s.getD 0 0 := by
    cases s with
    | nil => exact absurd rfl hne
    | cons a l => rfl
  rw [hhead]
  exact sorted_getD_mono s hs 0 j (Nat.zero_le j) hj

/-- In a non-empty sorted list the last entry is an upper bound of every
entry. -/
theorem getD_le_getLastD (s : List ℚ) (hs : s.Sorted (· ≤ ·)) (j : ℕ)
    (hj : j < s.length) : s.getD j 0 ≤ s.getLastD 0 := by
  have hne : s ≠ [] := by
    intro hnil
    rw [hnil] at hj
    exact absurd hj (by simp)
  have hlast : s.getLastD 0 = s.getD (s.length - 1) 0 := by
    rw [List.getLastD_eq_getLast?, List.getLast?_eq_getLast s hne,
      Option.getD_some, List.getLast_eq_getElem,
      getD_eq_getElem_of_lt s 0 (s.length - 1)
        (Nat.sub_lt (List.length_pos.mpr hne) Nat.one_pos)]
  rw [hlast]
  exact sorted_getD_mono s hs j (s.length - 1) (by omega) (by omega)

/-- The floored virtual index sits just below the index value. -/
theorem floor_toNat_facts (h : ℚ) (h0 : 0 ≤ h) :
    ((⌊h⌋.toNat : ℚ) ≤ h ∧ h < (⌊h⌋.toNat : ℚ) + 1) := by
  have hnn : 0 ≤ ⌊h⌋ := Int.floor_nonneg.mpr h0
  have hcast : ((⌊h⌋.toNat : ℕ) : ℚ) = ((⌊h⌋ : ℤ) : ℚ) := by
    exact_mod_cast Int.toNat_of_nonneg hnn
  constructor
  · rw [hcast]
    exact Int.floor_le h
  · rw [hcast]
    exact Int.lt_floor_add_one h

/-- For `0 ≤ p < 1` and at least two samples, the interpolation indices
`floor (p * (n - 1))` and its successor are in range. -/
theorem quantile_index_lt (n : ℕ) (hn : 2 ≤ n) (p : ℚ) (hp0 : 0 ≤ p)
    (hp1 : p < 1) : (⌊p * ((n : ℚ) - 1)⌋).toNat + 1 < n := by
  have hn2 : (2 : ℚ) ≤ (n : ℚ) := by exact_mod_cast hn
  have h0 : 0 ≤ p * ((n : ℚ) - 1) := mul_nonneg hp0 (by linarith)
  have hlt : p * ((n : ℚ) - 1) < (n : ℚ) - 1 := by
    have := mul_lt_mul_of_pos_right hp1 (show (0 : ℚ) < (n : ℚ) - 1 by linarith)
    simpa using this
  obtain ⟨hle, _⟩ := floor_toNat_facts _ h0
  have hq : ((⌊p * ((n : ℚ) - 1)⌋.toNat : ℕ) : ℚ) + 1 < (n : ℚ) := by linarith
  exact_mod_cast hq

/-- The interpolated value lies between its two neighbouring samples. -/
theorem interpSorted_bounds (s : List ℚ) (hs : s.Sorted (· ≤ ·)) (h : ℚ)
    (h0 : 0 ≤ h) (hidx : (⌊h⌋).toNat + 1 < s.length) :
    s.getD ((⌊h⌋).toNat) 0 ≤ interpSorted s h ∧
    interpSorted s h ≤ s.getD ((⌊h⌋).toNat + 1) 0 := by
  have hiL : (⌊h⌋).toNat < s.length := Nat.lt_of_succ_lt hidx
  obtain ⟨hg0, hg1⟩ := floor_toNat_facts h h0
  have hlo : s.getD ((⌊h⌋).toNat) 0 = s[(⌊h⌋).toNat] :=
    getD_eq_getElem_of_lt s 0 _ hiL
  have hhi0 : s.getD ((⌊h⌋).toNat + 1) (s.getD ((⌊h⌋).toNat) 0) =
      s[(⌊h⌋).toNat + 1] := getD_eq_getElem_of_lt s _ _ hidx
  have hhi : s.getD ((⌊h⌋).toNat + 1) 0 = s[(⌊h⌋).toNat + 1] :=
    getD_eq_getElem_of_lt s 0 _ hidx
  have hmono : s[(⌊h⌋).toNat] ≤ s[(⌊h⌋).toNat + 1] := by
    have := sorted_getD_mono s hs ((⌊h⌋).toNat) ((⌊h⌋).toNat + 1)
      (Nat.le_succ _) hidx
    rwa [hlo, hhi] at this
  unfold interpSorted
  rw [hhi0, hlo, hhi]
  constructor
  · nlinarith [mul_nonneg (by linarith : (0:ℚ) ≤ h - ((⌊h⌋).toNat : ℚ))
      (by linarith : (0:ℚ) ≤ s[(⌊h⌋).toNat + 1] - s[(⌊h⌋).toNat])]
  · nlinarith [mul_nonneg
      (by linarith : (0:ℚ) ≤ 1 - (h - ((⌊h⌋).toNat : ℚ)))
      (by linarith : (0:ℚ) ≤ s[(⌊h⌋).toNat + 1] - s[(⌊h⌋).toNat])]

/-- The interpolated value is monotone in the virtual index. -/
theorem interpSorted_mono (s : List ℚ) (hs : s.Sorted (· ≤ ·)) (h h' : ℚ)
    (h0 : 0 ≤ h) (hhh : h ≤ h') (hidx' : (⌊h'⌋).toNat + 1 < s.length) :
    interpSorted s h ≤ interpSorted s h' := by
  have h0' : 0 ≤ h' := le_trans h0 hhh
  have hiLe : (⌊h⌋).toNat ≤ (⌊h'⌋).toNat := Int.toNat_le_toNat (Int.floor_mono hhh)
  have hidx : (⌊h⌋).toNat + 1 < s.length := by omega
  rcases eq_or_lt_of_le hiLe with heq | hlt
  · have hiL : (⌊h⌋).toNat < s.length := Nat.lt_of_succ_lt hidx
    have hlo : s.getD ((⌊h⌋).toNat) 0 = s[(⌊h⌋).toNat] :=
      getD_eq_getElem_of_lt s 0 _ hiL
    have hhi0 : s.getD ((⌊h⌋).toNat + 1) (s.getD ((⌊h⌋).toNat) 0) =
        s[(⌊h⌋).toNat + 1] := getD_eq_getElem_of_lt s _ _ hidx
    have hmono : s[(⌊h⌋).toNat] ≤ s[(⌊h⌋).toNat + 1] := by
      have := sorted_getD_mono s hs ((⌊h⌋).toNat) ((⌊h⌋).toNat + 1)
        (Nat.le_succ _) hidx
      rwa [hlo, getD_eq_getElem_of_lt s 0 _ hidx] at this
    unfold interpSorted
    rw [← heq, hhi0, hlo]
    nlinarith [mul_le_mul_of_nonneg_right
      (by linarith : h - ((⌊h⌋).toNat : ℚ) ≤ h' - ((⌊h⌋).toNat : ℚ))
      (by linarith : (0:ℚ) ≤ s[(⌊h⌋).toNat + 1] - s[(⌊h⌋).toNat])]
  · have hub := (interpSorted_bounds s hs h h0 hidx).2
    have hlb := (interpSorted_bounds s hs h' h0' hidx').1
    have hmid : s.getD ((⌊h⌋).toNat + 1) 0 ≤ s.getD ((⌊h'⌋).toNat) 0 :=
      sorted_getD_mono s hs _ _ hlt (Nat.lt_of_succ_lt hidx')
    linarith

/-- With at least two samples and `0 ≤ p < 1`, the quantile is at least the
minimum sample. -/
theorem npMin_le_npQuantile (xs : List ℚ) (p : ℚ) (hn : 2 ≤ xs.length)
    (hp0 : 0 ≤ p) (hp1 : p < 1) : npMin xs ≤ npQuantile xs p := by
  have hn' : 2 ≤ (sortQ xs).length := by rw [sortQ_length]; exact hn
  have hn2 : (2 : ℚ) ≤ ((sortQ xs).length : ℚ) := by exact_mod_cast hn'
  have h0 : 0 ≤ p * (((sortQ xs).length : ℚ) - 1) :=
    mul_nonneg hp0 (by linarith)
  have hidx := quantile_index_lt (sortQ xs).length hn' p hp0 hp1
  have hb := (interpSorted_bounds (sortQ xs) (sortQ_sorted xs) _ h0 hidx).1
  have hhead := headD_le_getD (sortQ xs) (sortQ_sorted xs)
    ((⌊p * (((sortQ xs).length : ℚ) - 1)⌋).toNat) (Nat.lt_of_succ_lt hidx)
  exact le_trans hhead hb

/-- With at least two samples and `0 ≤ p < 1`, the quantile is at most the
maximum sample. -/
theorem npQuantile_le_npMax (xs : List ℚ) (p : ℚ) (hn : 2 ≤ xs.length)
    (hp0 : 0 ≤ p) (hp1 : p < 1) : npQuantile xs p ≤ npMax xs := by
  have hn' : 2 ≤ (sortQ xs).length := by rw [sortQ_length]; exact hn
  have hn2 : (2 : ℚ) ≤ ((sortQ xs).length : ℚ) := by exact_mod_cast hn'
  have h0 : 0 ≤ p * (((sortQ xs).length : ℚ) - 1) :=
    mul_nonneg hp0 (by linarith)
  have hidx := quantile_index_lt (sortQ xs).length hn' p hp0 hp1
  have hb := (interpSorted_bounds (sortQ xs) (sortQ_sorted xs) _ h0 hidx).2
  have hlast := getD_le_getLastD (sortQ xs) (sortQ_sorted xs)
    ((⌊p * (((sortQ xs).length : ℚ) - 1)⌋).toNat + 1) hidx
  exact le_trans hb hlast

/-- With at least two samples, the quantile is monotone in `p` on
`[0, 1)`. -/
theorem npQuantile_mono_p (xs : List ℚ) (p q : ℚ) (hn : 2 ≤ xs.length)
    (hp0 : 0 ≤ p) (hpq : p ≤ q) (hq1 : q < 1) :
    npQuantile xs p ≤ npQuantile xs q := by
  have hn' : 2 ≤ (sortQ xs).length := by rw [sortQ_length]; exact hn
  have hn2 : (2 : ℚ) ≤ ((sortQ xs).length : ℚ) := by exact_mod_cast hn'
  have h0 : 0 ≤ p * (((sortQ xs).length : ℚ) - 1) :=
    mul_nonneg hp0 (by linarith)
  have hhh : p * (((sortQ xs).length : ℚ) - 1) ≤
      q * (((sortQ xs).length : ℚ) - 1) :=
    mul_le_mul_of_nonneg_right hpq (by linarith)
  have hidx' := quantile_index_lt (sortQ xs).length hn' q
    (le_trans hp0 hpq) hq1
  exact interpSorted_mono (sortQ xs) (sortQ_sorted xs) _ _ h0 hhh hidx'

/-- Python's `round(x, 3)` is monotone. -/
theorem round3_mono {a b : ℚ} (hab : a ≤ b) : round3 a ≤ round3 b := by
  unfold round3
  have hr : round (a * 1000) ≤ round (b * 1000) := by
    rw [round_eq, round_eq]
    exact Int.floor_mono (by linarith)
  have hrq : ((round (a * 1000) : ℤ) : ℚ) ≤ ((round (b * 1000) : ℤ) : ℚ) := by
    exact_mod_cast hr
  linarith

/-- C8: on sequences with at least two samples, the rounded statistics
written by `calc_stats` satisfy `min ≤ p50 ≤ p95 ≤ p99 ≤ max`, for the
best case and the worst case alike. -/
theorem c8_percentile_order (s : Stats) (bs ws : List ℚ)
    (hb : 2 ≤ bs.length) (hw : 2 ≤ ws.length) :
    ∃ bmin b50 b95 b99 bmax wmin w50 w95 w99 wmax,
      (s.calc_stats bs ws).best_min = StatVal.num bmin ∧
      (s.calc_stats bs ws).best_p50 = StatVal.num b50 ∧
      (s.calc_stats bs ws).best_p95 = StatVal.num b95 ∧
      (s.calc_stats bs ws).best_p99 = StatVal.num b99 ∧
      (s.calc_stats bs ws).best_max = StatVal.num bmax ∧
      (s.calc_stats bs ws).worst_min = StatVal.num wmin ∧
      (s.calc_stats bs ws).worst_p50 = StatVal.num w50 ∧
      (s.calc_stats bs ws).worst_p95 = StatVal.num w95 ∧
      (s.calc_stats bs ws).worst_p99 = StatVal.num w99 ∧
      (s.calc_stats bs ws).worst_max = StatVal.num wmax ∧
      bmin ≤ b50 ∧ b50 ≤ b95 ∧ b95 ≤ b99 ∧ b99 ≤ bmax ∧
      wmin ≤ w50 ∧ w50 ≤ w95 ∧ w95 ≤ w99 ∧ w99 ≤ wmax := by
  have hb1 : 1 < bs.length := hb
  have hw1 : 1 < ws.length := hw
  refine ⟨round3 (npMin bs), round3 (npQuantile bs (1/2)),
    round3 (npQuantile bs (95/100)), round3 (npQuantile bs (99/100)),
    round3 (npMax bs), round3 (npMin ws), round3 (npQuantile ws (1/2)),
    round3 (npQuantile ws (95/100)), round3 (npQuantile ws (99/100)),
    round3 (npMax ws), ?_, ?_, ?_, ?_, ?_, ?_, ?_, ?_, ?_, ?_,
    ?_, ?_, ?_, ?_, ?_, ?_, ?_, ?_⟩
  · simp [Stats.calc_stats, hb1, hw1]
  · simp [Stats.calc_stats, hb1, hw1]
  · simp [Stats.calc_stats, hb1, hw1]
  · simp [Stats.calc_stats, hb1, hw1]
  · simp [Stats.calc_stats, hb1, hw1]
  · simp [Stats.calc_stats, hb1, hw1]
  · simp [Stats.calc_stats, hb1, hw1]
  · simp [Stats.calc_stats, hb1, hw1]
  · simp [Stats.calc_stats, hb1, hw1]
  · simp [Stats.calc_stats, hb1, hw1]
  · exact round3_mono (npMin_le_npQuantile bs (1/2) hb (by norm_num) (by norm_num))
  · exact round3_mono (npQuantile_mono_p bs (1/2) (95/100) hb (by norm_num)
      (by norm_num) (by norm_num))
  · exact round3_mono (npQuantile_mono_p bs (95/100) (99/100) hb (by norm_num)
      (by norm_num) (by norm_num))
  · exact round3_mono (npQuantile_le_npMax bs (99/100) hb (by norm_num)
      (by norm_num))
  · exact round3_mono (npMin_le_npQuantile ws (1/2) hw (by norm_num) (by norm_num))
  · exact round3_mono (npQuantile_mono_p ws (1/2) (95/100) hw (by norm_num)
      (by norm_num) (by norm_num))
  · exact round3_mono (npQuantile_mono_p ws (95/100) (99/100) hw (by norm_num)
      (by norm_num) (by norm_num))
  · exact round3_mono (npQuantile_le_npMax ws (99/100) hw (by norm_num)
      (by norm_num))

/-- C8 witness: the ordered percentile chain evaluated on the concrete
sequences `[3, 1, 2]` and `[10, 0]`. -/
theorem c8_percentile_order_witness :
    ∃ bmin b50 b95 b99 bmax wmin w50 w95 w99 wmax,
      ((Stats.init "P" []).calc_stats [3, 1, 2] [10, 0]).best_min =
        StatVal.num bmin ∧
      ((Stats.init "P" []).calc_stats [3, 1, 2] [10, 0]).best_p50 =
        StatVal.num b50 ∧
      ((Stats.init "P" []).calc_stats [3, 1, 2] [10, 0]).best_p95 =
        StatVal.num b95 ∧
      ((Stats.init "P" []).calc_stats [3, 1, 2] [10, 0]).best_p99 =
        StatVal.num b99 ∧
      ((Stats.init "P" []).calc_stats [3, 1, 2] [10, 0]).best_max =
        StatVal.num bmax ∧
      ((Stats.init "P" []).calc_stats [3, 1, 2] [10, 0]).worst_min =
        StatVal.num wmin ∧
      ((Stats.init "P" []).calc_stats [3, 1, 2] [10, 0]).worst_p50 =
        StatVal.num w50 ∧
      ((Stats.init "P" []).calc_stats [3, 1, 2] [10, 0]).worst_p95 =
        StatVal.num w95 ∧
      ((Stats.init "P" []).calc_stats [3, 1, 2] [10, 0]).worst_p99 =
        StatVal.num w99 ∧
      ((Stats.init "P" []).calc_stats [3, 1, 2] [10, 0]).worst_max =
        StatVal.num wmax ∧
      bmin ≤ b50 ∧ b50 ≤ b95 ∧ b95 ≤ b99 ∧ b99 ≤ bmax ∧
      wmin ≤ w50 ∧ w50 ≤ w95 ∧ w95 ≤ w99 ∧ w99 ≤ wmax :=
  c8_percentile_order (Stats.init "P" []) [3, 1, 2] [10, 0]
    (by decide) (by decide)

end AnalyzePath
